import Mathlib

/-!
Shallow embedding of the Arrow Client protocol engine
(`src/net/arrow/proto/mod.rs`) and of the control-message layer
(`src/net/arrow/proto/msg/control/mod.rs`).

Machine integers are modelled as `Nat` with explicit reduction
modulo `2^16` where the source wraps a `u16`.  The source measures
time as `f64` seconds (`time::precise_time_s()`); here time is `ℚ`,
passed explicitly to every function that reads the clock.
Byte slices are `List Nat`, each element read modulo 256.
-/

namespace Arrow

/-- `ARROW_PROTOCOL_VERSION` from `proto/mod.rs`. -/
def ARROW_PROTOCOL_VERSION : Nat := 1

/-- `ACK_TIMEOUT: f64 = 20.0`. -/
def ACK_TIMEOUT : ℚ := 20

/-- `PING_PERIOD: f64 = 60.0`. -/
def PING_PERIOD : ℚ := 60

/-- `UPDATE_CHECK_PERIOD: f64 = 5.0`. -/
def UPDATE_CHECK_PERIOD : ℚ := 5

-- ACK codes from `msg/control/mod.rs`
def ACK_NO_ERROR : Nat := 0x00000000
def ACK_UNSUPPORTED_PROTOCOL_VERSION : Nat := 0x00000001
def ACK_UNAUTHORIZED : Nat := 0x00000002
def ACK_CONNECTION_ERROR : Nat := 0x00000003
def ACK_UNSUPPORTED_METHOD : Nat := 0x00000004
def ACK_INTERNAL_SERVER_ERROR : Nat := 0xffffffff

/-- `STATUS_FLAG_SCAN` (bit 0). -/
def STATUS_FLAG_SCAN : Nat := 1

-- message type constants from `msg/control/mod.rs`
def CMSG_ACK : Nat := 0x0000
def CMSG_PING : Nat := 0x0001
def CMSG_REGISTER : Nat := 0x0002
def CMSG_REDIRECT : Nat := 0x0003
def CMSG_UPDATE : Nat := 0x0004
def CMSG_HUP : Nat := 0x0005
def CMSG_RESET_SVC_TABLE : Nat := 0x0006
def CMSG_SCAN_NETWORK : Nat := 0x0007
def CMSG_GET_STATUS : Nat := 0x0008
def CMSG_STATUS : Nat := 0x0009
def CMSG_GET_SCAN_REPORT : Nat := 0x000a
def CMSG_SCAN_REPORT : Nat := 0x000b

/-- `ControlMessageType` from `msg/control/mod.rs`. -/
inductive ControlMessageType
  | ACK
  | PING
  | REGISTER
  | REDIRECT
  | UPDATE
  | HUP
  | RESET_SVC_TABLE
  | SCAN_NETWORK
  | GET_STATUS
  | STATUS
  | UNKNOWN
  | GET_SCAN_REPORT
  | SCAN_REPORT
  deriving DecidableEq, Repr

/-- `ControlMessageHeader`: `msg_id` and `msg_type`, both `u16`. -/
structure ControlMessageHeader where
  msg_id : Nat
  msg_type : Nat
  deriving DecidableEq, Repr

/-- `ControlMessageHeader::message_type`: map the raw `msg_type` code to
the enumerated type, defaulting to `UNKNOWN`. -/
def ControlMessageHeader.message_type (h : ControlMessageHeader) : ControlMessageType :=
  if h.msg_type = CMSG_ACK then .ACK
  else if h.msg_type = CMSG_PING then .PING
  else if h.msg_type = CMSG_REGISTER then .REGISTER
  else if h.msg_type = CMSG_REDIRECT then .REDIRECT
  else if h.msg_type = CMSG_UPDATE then .UPDATE
  else if h.msg_type = CMSG_HUP then .HUP
  else if h.msg_type = CMSG_RESET_SVC_TABLE then .RESET_SVC_TABLE
  else if h.msg_type = CMSG_SCAN_NETWORK then .SCAN_NETWORK
  else if h.msg_type = CMSG_GET_STATUS then .GET_STATUS
  else if h.msg_type = CMSG_STATUS then .STATUS
  else if h.msg_type = CMSG_GET_SCAN_REPORT then .GET_SCAN_REPORT
  else if h.msg_type = CMSG_SCAN_REPORT then .SCAN_REPORT
  else .UNKNOWN

/-- Read the i-th byte of a byte list, reduced modulo 256 (bytes are `u8`). -/
def byteAt (bytes : List Nat) (i : Nat) : Nat :=
  (bytes.getD i 0) % 256

/-- `ControlMessageHeader::from_bytes`: two big-endian `u16` fields read
from a 4-byte slice. -/
def ControlMessageHeader.from_bytes (bytes : List Nat) : ControlMessageHeader :=
  { msg_id := byteAt bytes 0 * 256 + byteAt bytes 1
    msg_type := byteAt bytes 2 * 256 + byteAt bytes 3 }

/-- Control-message bodies as a sum type.  The source represents bodies as
boxed trait objects downcast on use; the variants here correspond to the
decoders in `msg/control/mod.rs` plus the outbound-only bodies produced by
the control-message factory. -/
inductive ControlMessageBody
  | ack (err : Nat)
  | empty
  | redirect (target : String)
  | hup (session_id : Nat) (error_code : Nat)
  | register
  | update
  | status (request_id : Nat) (status_flags : Nat) (active_sessions : Nat)
  | scanReport (request_id : Nat)
  deriving DecidableEq, Repr

/-- `ControlMessage`: header plus body. -/
structure ControlMessage where
  header : ControlMessageHeader
  body : ControlMessageBody
  deriving DecidableEq, Repr

/-- `DecodeError` carries a message string. -/
structure DecodeError where
  msg : String
  deriving DecidableEq, Repr

/-- Interpret raw bytes as a string, one character per byte.
Modelled from the spec: `RedirectMessage` (not under `src/`) carries a
string `target` decoded from the message payload. -/
def stringOfBytes (bytes : List Nat) : String :=
  String.mk (bytes.map fun b => Char.ofNat (b % 256))

/-- Modelled from the spec: `AckMessage::from_bytes` (the `ack` module is
not under `src/`).  The ACK body is the `err` field, a big-endian `u32`. -/
def decodeAckBody (bytes : List Nat) : Except DecodeError ControlMessageBody :=
  if bytes.length = 4 then
    .ok (.ack (byteAt bytes 0 * 16777216 + byteAt bytes 1 * 65536 +
               byteAt bytes 2 * 256 + byteAt bytes 3))
  else
    .error ⟨"malformed Arrow Control Protocol message"⟩

/-- Modelled from the spec: `RedirectMessage::from_bytes` (the `redirect`
module is not under `src/`).  The body is an address string. -/
def decodeRedirectBody (bytes : List Nat) : Except DecodeError ControlMessageBody :=
  .ok (.redirect (stringOfBytes bytes))

/-- Modelled from the spec: `HupMessage::from_bytes` (the `hup` module is
not under `src/`).  The body is `session_id: u32` and `error_code: u32`,
big-endian. -/
def decodeHupBody (bytes : List Nat) : Except DecodeError ControlMessageBody :=
  if bytes.length = 8 then
    .ok (.hup
      (byteAt bytes 0 * 16777216 + byteAt bytes 1 * 65536 +
       byteAt bytes 2 * 256 + byteAt bytes 3)
      (byteAt bytes 4 * 16777216 + byteAt bytes 5 * 65536 +
       byteAt bytes 6 * 256 + byteAt bytes 7))
  else
    .error ⟨"malformed Arrow Control Protocol message"⟩

/-- `ControlMessage::decode_empty_message`: succeed only on an empty payload. -/
def decodeEmptyBody (bytes : List Nat) : Except DecodeError ControlMessageBody :=
  if bytes.length = 0 then
    .ok .empty
  else
    .error ⟨"malformed Arrow Control Protocol message"⟩

/-- `ControlMessage::decode_body`: dispatch on the message type.  The
outbound-only variants (`REGISTER`, `UPDATE`, `STATUS`, `SCAN_REPORT`) and
`UNKNOWN` are rejected with a `DecodeError`. -/
def ControlMessage.decode_body (mtype : ControlMessageType) (bytes : List Nat) :
    Except DecodeError ControlMessageBody :=
  match mtype with
  | .ACK => decodeAckBody bytes
  | .PING => decodeEmptyBody bytes
  | .REDIRECT => decodeRedirectBody bytes
  | .HUP => decodeHupBody bytes
  | .RESET_SVC_TABLE => decodeEmptyBody bytes
  | .SCAN_NETWORK => decodeEmptyBody bytes
  | .GET_STATUS => decodeEmptyBody bytes
  | .GET_SCAN_REPORT => decodeEmptyBody bytes
  | .UNKNOWN => .error ⟨"unknown Arrow Control Protocol message type"⟩
  | _ => .error ⟨"unexpected Arrow Control Protocol message type"⟩

/-- `ControlMessage::from_bytes`: reject short inputs, decode the 4-byte
header, then decode the body from the remaining bytes. -/
def ControlMessage.from_bytes (bytes : List Nat) : Except DecodeError ControlMessage :=
  if bytes.length < 4 then
    .error ⟨"malformed Arrow Control Protocol message"⟩
  else
    let header := ControlMessageHeader.from_bytes (bytes.take 4)
    match ControlMessage.decode_body header.message_type (bytes.drop 4) with
    | .error e => .error e
    | .ok body => .ok { header := header, body := body }

/-- `ArrowMessage` as handed to the engine: the frame header's `service`
field (`u16`; `0` = control plane) and the opaque payload bytes. -/
structure ArrowMessage where
  service : Nat
  payload : List Nat
  deriving DecidableEq, Repr

/-- An element of the engine's outbound queue.  The source stores
`ArrowMessage` values; control replies are enqueued via
`ArrowMessage::from(msg)` (encoding deferred to the codec), session frames
are forwarded verbatim. -/
inductive QueuedMessage
  | control (msg : ControlMessage)
  | session (msg : ArrowMessage)
  deriving DecidableEq, Repr

/-- `ArrowError` variants from `error.rs`, by constructor used in
`proto/mod.rs`. -/
inductive ArrowError
  | connectionError (msg : String)
  | unauthorized (msg : String)
  | unsupportedProtocolVersion (msg : String)
  | arrowServerError (msg : String)
  | other (msg : String)
  deriving DecidableEq, Repr

/-- Commands accepted by the command channel. -/
inductive Command
  | ResetServiceTable
  | ScanNetwork
  deriving DecidableEq, Repr

/-- Debug-format name of a command, as interpolated by
`process_command`'s error message. -/
def Command.debugName : Command → String
  | .ResetServiceTable => "ResetServiceTable"
  | .ScanNetwork => "ScanNetwork"

/-- `ProtocolState` from `proto/mod.rs`. -/
inductive ProtocolState
  | Handshake
  | Established
  deriving DecidableEq, Repr

/-- `ExpectedAck`: creation timestamp and awaited message id. -/
structure ExpectedAck where
  timestamp : ℚ
  message_id : Nat
  deriving DecidableEq, Repr

/-- `ExpectedAck::timeout`: true iff `timestamp + ACK_TIMEOUT < now`
(strict comparison in the source). -/
def ExpectedAck.timeout (a : ExpectedAck) (now : ℚ) : Bool :=
  a.timestamp + ACK_TIMEOUT < now

/-- Modelled from the spec: `ControlMessageFactory` (`proto/utils.rs`, not
under `src/`) holds a monotonically increasing 16-bit `next_msg_id`
counter.  `register`, `update` and `ping` assign the next id and advance
the counter; `ack`, `status` and `scan_report` echo the server-supplied
id and leave the counter unchanged. -/
structure ControlMessageFactory where
  next_msg_id : Nat
  deriving DecidableEq, Repr

/-- Modelled from the spec: assign the next message id, wrapping as `u16`. -/
def ControlMessageFactory.take_id (f : ControlMessageFactory) :
    Nat × ControlMessageFactory :=
  (f.next_msg_id % 65536, { next_msg_id := (f.next_msg_id + 1) % 65536 })

/-- Modelled from the spec: `ControlMessageFactory::register`. -/
def ControlMessageFactory.register (f : ControlMessageFactory) :
    ControlMessage × ControlMessageFactory :=
  let (i, f) := f.take_id
  (⟨⟨i, CMSG_REGISTER⟩, .register⟩, f)

/-- Modelled from the spec: `ControlMessageFactory::update`. -/
def ControlMessageFactory.update (f : ControlMessageFactory) :
    ControlMessage × ControlMessageFactory :=
  let (i, f) := f.take_id
  (⟨⟨i, CMSG_UPDATE⟩, .update⟩, f)

/-- Modelled from the spec: `ControlMessageFactory::ping`. -/
def ControlMessageFactory.ping (f : ControlMessageFactory) :
    ControlMessage × ControlMessageFactory :=
  let (i, f) := f.take_id
  (⟨⟨i, CMSG_PING⟩, .empty⟩, f)

/-- Modelled from the spec: `ControlMessageFactory::ack` echoes the
inbound message id verbatim; the counter is not advanced. -/
def ControlMessageFactory.ack (_f : ControlMessageFactory)
    (msg_id : Nat) (err : Nat) : ControlMessage :=
  ⟨⟨msg_id, CMSG_ACK⟩, .ack err⟩

/-- Modelled from the spec: `ControlMessageFactory::status` echoes the
inbound message id verbatim. -/
def ControlMessageFactory.status (_f : ControlMessageFactory)
    (msg_id : Nat) (status_flags : Nat) (active_sessions : Nat) : ControlMessage :=
  ⟨⟨msg_id, CMSG_STATUS⟩, .status msg_id status_flags active_sessions⟩

/-- Modelled from the spec: `ControlMessageFactory::scan_report` echoes
the inbound message id verbatim. -/
def ControlMessageFactory.scan_report (_f : ControlMessageFactory)
    (msg_id : Nat) : ControlMessage :=
  ⟨⟨msg_id, CMSG_SCAN_REPORT⟩, .scanReport msg_id⟩

/-- `ArrowClientContext`, restricted to the state the protocol logic
reads and writes.  The session manager and the command channel are
modelled by the effect trace they receive (`forwarded`, `closed_sessions`,
`commands`); the application context's read-only accessors become the
fields `diagnostic_mode` and `scanning`; `session_count` models
`SessionManager::len`. -/
structure ArrowClientContext where
  cmsg_factory : ControlMessageFactory
  messages : List QueuedMessage
  expected_acks : List ExpectedAck
  state : ProtocolState
  redirect : Option String
  last_ping : ℚ
  last_update_chck : ℚ
  diagnostic_mode : Bool
  scanning : Bool
  forwarded : List ArrowMessage
  closed_sessions : List (Nat × Nat)
  commands : List Command
  session_count : Nat
  deriving DecidableEq, Repr

namespace ArrowClientContext

/-- `is_closed`: the client is closed once a redirect is set. -/
def is_closed (ctx : ArrowClientContext) : Bool :=
  ctx.redirect.isSome

/-- `ack_timeout`: the head of `expected_acks` has timed out. -/
def ack_timeout (ctx : ArrowClientContext) (now : ℚ) : Bool :=
  match ctx.expected_acks with
  | a :: _ => a.timeout now
  | [] => false

/-- `send_control_message`: push the message onto the outbound queue. -/
def send_control_message (ctx : ArrowClientContext) (msg : ControlMessage) :
    ArrowClientContext :=
  { ctx with messages := ctx.messages ++ [.control msg] }

/-- `send_unconfirmed_control_message`: register an expected ACK for the
message's id, then enqueue it. -/
def send_unconfirmed_control_message (ctx : ArrowClientContext)
    (msg : ControlMessage) (now : ℚ) : ArrowClientContext :=
  let ctx := { ctx with
    expected_acks := ctx.expected_acks ++ [ExpectedAck.mk now msg.header.msg_id] }
  ctx.send_control_message msg

/-- `send_register_message` (the MAC/UUID/password arguments only shape
the opaque REGISTER body). -/
def send_register_message (ctx : ArrowClientContext) (now : ℚ) :
    ArrowClientContext :=
  let (msg, f) := ctx.cmsg_factory.register
  let ctx := { ctx with cmsg_factory := f }
  ctx.send_unconfirmed_control_message msg now

/-- `send_update_message`: fire-and-forget, no expected ACK. -/
def send_update_message (ctx : ArrowClientContext) : ArrowClientContext :=
  let (msg, f) := ctx.cmsg_factory.update
  let ctx := { ctx with cmsg_factory := f }
  ctx.send_control_message msg

/-- `send_ping_message`: unconfirmed send plus `last_ping` refresh. -/
def send_ping_message (ctx : ArrowClientContext) (now : ℚ) :
    ArrowClientContext :=
  let (msg, f) := ctx.cmsg_factory.ping
  let ctx := { ctx with cmsg_factory := f }
  let ctx := ctx.send_unconfirmed_control_message msg now
  { ctx with last_ping := now }

/-- `check_for_updates`: the source forces `updated = true`, so an UPDATE
is sent on every check; `last_update_chck` is refreshed. -/
def check_for_updates (ctx : ArrowClientContext) (now : ℚ) :
    ArrowClientContext :=
  let ctx := ctx.send_update_message
  { ctx with last_update_chck := now }

/-- `time_event`: in Established, send a PING when `last_ping +
PING_PERIOD < t` and run the update check when `last_update_chck +
UPDATE_CHECK_PERIOD < t`; in Handshake, do nothing.  (The task
notification on ACK timeout changes no protocol state and is omitted.) -/
def time_event (ctx : ArrowClientContext) (t : ℚ) : ArrowClientContext :=
  if ctx.state = .Established then
    let ctx := if ctx.last_ping + PING_PERIOD < t then ctx.send_ping_message t else ctx
    let ctx := if ctx.last_update_chck + UPDATE_CHECK_PERIOD < t then
        ctx.check_for_updates t else ctx
    ctx
  else ctx

end ArrowClientContext

/-- Outcome of a `&mut self` method returning `Result<(), ArrowError>`:
`ok`, a returned error, or a `panic!`/`expect` failure. -/
inductive ProcOutcome
  | ok
  | err (e : ArrowError)
  | panic (msg : String)
  deriving DecidableEq, Repr

namespace ArrowClientContext

/-- `process_handshake_ack`: dispatch on the ACK body's `err` field.  A
non-ACK body hits the `expect("ACK message expected")` panic. -/
def process_handshake_ack (ctx : ArrowClientContext) (msg : ControlMessage) :
    ArrowClientContext × ProcOutcome :=
  match msg.body with
  | .ack err =>
    if err = ACK_NO_ERROR then
      let ctx := { ctx with state := .Established }
      let ctx := if ctx.diagnostic_mode then { ctx with redirect := some "" } else ctx
      (ctx, .ok)
    else if err = ACK_UNAUTHORIZED then
      (ctx, .err (.unauthorized "Arrow REGISTER failed (unauthorized)"))
    else if err = ACK_UNSUPPORTED_PROTOCOL_VERSION then
      (ctx, .err (.unsupportedProtocolVersion
        "Arrow REGISTER failed (unsupported version of the Arrow Protocol)"))
    else if err = ACK_INTERNAL_SERVER_ERROR then
      (ctx, .err (.arrowServerError "Arrow REGISTER failed (internal server error)"))
    else
      (ctx, .err (.other "Arrow REGISTER failed (unknown error)"))
  | _ => (ctx, .panic "ACK message expected")

/-- `process_ack_message`: pop the FIFO head; empty queue and id mismatch
are fatal; a matching head in Handshake runs the handshake logic. -/
def process_ack_message (ctx : ArrowClientContext) (msg : ControlMessage) :
    ArrowClientContext × ProcOutcome :=
  match ctx.expected_acks with
  | expected_ack :: rest =>
    let ctx := { ctx with expected_acks := rest }
    if msg.header.msg_id = expected_ack.message_id then
      if ctx.state = .Handshake then
        ctx.process_handshake_ack msg
      else
        (ctx, .ok)
    else
      (ctx, .err (.other "unexpected ACK message ID"))
  | [] => (ctx, .err (.other "no ACK message expected"))

/-- `process_ping_message`: reject outside Established, else enqueue an
ACK echoing the inbound id with error code 0. -/
def process_ping_message (ctx : ArrowClientContext) (msg : ControlMessage) :
    ArrowClientContext × ProcOutcome :=
  if ctx.state ≠ .Established then
    (ctx, .err (.other "cannot handle PING message in the Handshake state"))
  else
    let ack := ctx.cmsg_factory.ack msg.header.msg_id 0x00
    (ctx.send_control_message ack, .ok)

/-- `process_hup_message`: reject outside Established, else close the
session named by the HUP body. -/
def process_hup_message (ctx : ArrowClientContext) (msg : ControlMessage) :
    ArrowClientContext × ProcOutcome :=
  if ctx.state ≠ .Established then
    (ctx, .err (.other "cannot handle HUP message in the Handshake state"))
  else
    match msg.body with
    | .hup session_id error_code =>
      ({ ctx with closed_sessions := ctx.closed_sessions ++ [(session_id, error_code)] }, .ok)
    | _ => (ctx, .panic "HUP message expected")

/-- `process_redirect_message`: reject outside Established, else set
`redirect` to the body's target. -/
def process_redirect_message (ctx : ArrowClientContext) (msg : ControlMessage) :
    ArrowClientContext × ProcOutcome :=
  if ctx.state ≠ .Established then
    (ctx, .err (.other "cannot handle REDIRECT message in the Handshake state"))
  else
    match msg.body with
    | .redirect target => ({ ctx with redirect := some target }, .ok)
    | _ => (ctx, .panic "REDIRECT message expected")

/-- `process_get_status_message`: reject outside Established, else reply
with a STATUS message echoing the inbound id. -/
def process_get_status_message (ctx : ArrowClientContext) (msg : ControlMessage) :
    ArrowClientContext × ProcOutcome :=
  if ctx.state ≠ .Established then
    (ctx, .err (.other "cannot handle GET_STATUS message in the Handshake state"))
  else
    let status_flags := if ctx.scanning then STATUS_FLAG_SCAN else 0
    let reply := ctx.cmsg_factory.status msg.header.msg_id status_flags ctx.session_count
    (ctx.send_control_message reply, .ok)

/-- `process_get_scan_report_message`: reject outside Established, else
reply with a SCAN_REPORT message echoing the inbound id. -/
def process_get_scan_report_message (ctx : ArrowClientContext) (msg : ControlMessage) :
    ArrowClientContext × ProcOutcome :=
  if ctx.state ≠ .Established then
    (ctx, .err (.other "cannot handle GET_SCAN_REPORT message in the Handshake state"))
  else
    let reply := ctx.cmsg_factory.scan_report msg.header.msg_id
    (ctx.send_control_message reply, .ok)

/-- `process_command`: reject outside Established, else send the command
on the command channel. -/
def process_command (ctx : ArrowClientContext) (cmd : Command) :
    ArrowClientContext × ProcOutcome :=
  if ctx.state ≠ .Established then
    (ctx, .err (.other
      ("cannot handle the " ++ cmd.debugName ++ " command in the Handshake state")))
  else
    ({ ctx with commands := ctx.commands ++ [cmd] }, .ok)

/-- `process_service_request_message`: reject outside Established, else
forward the frame to the session manager. -/
def process_service_request_message (ctx : ArrowClientContext) (msg : ArrowMessage) :
    ArrowClientContext × ProcOutcome :=
  if ctx.state ≠ .Established then
    (ctx, .err (.other "cannot handle service requests in the Handshake state"))
  else
    ({ ctx with forwarded := ctx.forwarded ++ [msg] }, .ok)

/-- `process_control_protocol_message`: decode the payload as a
`ControlMessage` (a `DecodeError` surfaces as `Other`), then dispatch on
the message type. -/
def process_control_protocol_message (ctx : ArrowClientContext) (msg : ArrowMessage) :
    ArrowClientContext × ProcOutcome :=
  match ControlMessage.from_bytes msg.payload with
  | .error e => (ctx, .err (.other e.msg))
  | .ok cmsg =>
    match cmsg.header.message_type with
    | .ACK => ctx.process_ack_message cmsg
    | .PING => ctx.process_ping_message cmsg
    | .HUP => ctx.process_hup_message cmsg
    | .REDIRECT => ctx.process_redirect_message cmsg
    | .GET_STATUS => ctx.process_get_status_message cmsg
    | .GET_SCAN_REPORT => ctx.process_get_scan_report_message cmsg
    | .RESET_SVC_TABLE => ctx.process_command .ResetServiceTable
    | .SCAN_NETWORK => ctx.process_command .ScanNetwork
    | .UNKNOWN => (ctx, .err (.other "unknow control message received"))
    | .REGISTER => (ctx, .err (.other "unexpected control message received: REGISTER"))
    | .UPDATE => (ctx, .err (.other "unexpected control message received: UPDATE"))
    | .STATUS => (ctx, .err (.other "unexpected control message received: STATUS"))
    | .SCAN_REPORT => (ctx, .err (.other "unexpected control message received: SCAN_REPORT"))

/-- `Sink::start_send`: a closed client accepts and discards every
message; otherwise dispatch on the `service` field.  `ok` stands for
`Ok(AsyncSink::Ready)`. -/
def start_send (ctx : ArrowClientContext) (msg : ArrowMessage) :
    ArrowClientContext × ProcOutcome :=
  if ctx.is_closed then
    (ctx, .ok)
  else if msg.service = 0 then
    ctx.process_control_protocol_message msg
  else
    ctx.process_service_request_message msg

end ArrowClientContext

/-- Result of `SessionManager::poll`, supplied to the engine's poll as an
oracle (the session manager's internals are outside the embedded core). -/
inductive SessionPoll
  | notReady
  | ready (msg : ArrowMessage)
  | endOfStream
  | error (e : ArrowError)
  deriving DecidableEq, Repr

/-- Result of `Stream::poll` on the engine. -/
inductive PollResult
  | err (e : ArrowError)
  | endOfStream
  | ready (msg : QueuedMessage)
  | notReady
  | panic (msg : String)
  deriving DecidableEq, Repr

namespace ArrowClientContext

/-- `Stream::poll`: ACK timeout first (even when closed), then clean
end-of-stream on redirect, then the outbound queue's front, then the
session manager; end-of-stream from the session manager is a panic. -/
def poll (ctx : ArrowClientContext) (now : ℚ) (sp : SessionPoll) :
    ArrowClientContext × PollResult :=
  if ctx.ack_timeout now then
    (ctx, .err (.connectionError "Arrow Service connection timeout"))
  else if ctx.is_closed then
    (ctx, .endOfStream)
  else
    match ctx.messages with
    | m :: rest => ({ ctx with messages := rest }, .ready m)
    | [] =>
      match sp with
      | .error e => (ctx, .err e)
      | .ready m => (ctx, .ready (.session m))
      | .endOfStream => (ctx, .panic "session manager returned end of stream")
      | .notReady => (ctx, .notReady)

end ArrowClientContext

/-- A freshly shaped concrete context used to instantiate the theorems
below (the REGISTER enqueued by `ArrowClientContext::new` has already
been polled out and acknowledged in most scenarios; fields are set per
scenario). -/
def ctx0 : ArrowClientContext :=
  { cmsg_factory := ⟨1⟩
    messages := []
    expected_acks := []
    state := .Handshake
    redirect := none
    last_ping := 0
    last_update_chck := 0
    diagnostic_mode := false
    scanning := false
    forwarded := []
    closed_sessions := []
    commands := []
    session_count := 0 }

/-- Helper: `process_handshake_ack` never touches the pending-ack queue. -/
theorem process_handshake_ack_expected_acks (ctx : ArrowClientContext)
    (msg : ControlMessage) :
    ((ctx.process_handshake_ack msg).1).expected_acks = ctx.expected_acks := by
  unfold ArrowClientContext.process_handshake_ack
  cases msg.body with
  | ack err =>
    simp only []
    split_ifs <;> rfl
  | empty => rfl
  | redirect t => rfl
  | hup s e => rfl
  | register => rfl
  | update => rfl
  | status a b c => rfl
  | scanReport a => rfl

/-- C1: an outbound poll fails with the connection-timeout error whenever
the pending-ack head has expired (even with a redirect set); otherwise a
set redirect yields end-of-stream; otherwise a non-empty outbound queue
yields its front element (so queued control frames always precede session
frames); otherwise a ready session-manager frame is yielded. -/
theorem C1_poll_order (ctx : ArrowClientContext) (now : ℚ) (sp : SessionPoll) :
    (ctx.ack_timeout now = true →
      ctx.poll now sp =
        (ctx, .err (.connectionError "Arrow Service connection timeout"))) ∧
    (ctx.ack_timeout now = false → ctx.is_closed = true →
      ctx.poll now sp = (ctx, .endOfStream)) ∧
    (ctx.ack_timeout now = false → ctx.is_closed = false →
      ∀ m rest, ctx.messages = m :: rest →
        ctx.poll now sp = ({ ctx with messages := rest }, .ready m)) ∧
    (ctx.ack_timeout now = false → ctx.is_closed = false → ctx.messages = [] →
      ∀ m, sp = .ready m → ctx.poll now sp = (ctx, .ready (.session m))) := by
  unfold ArrowClientContext.poll
  refine ⟨fun h => by simp [h], fun h h' => by simp [h, h'], ?_, ?_⟩
  · intro h h' m rest hm
    simp [h, h', hm]
  · intro h h' hm m hsp
    simp [h, h', hm, hsp]

/-- C1 witness: a context whose head expectation has expired at time 30
fails with the timeout error even though a redirect is set. -/
theorem C1_poll_order_witness :
    ({ ctx0 with expected_acks := [⟨0, 1⟩], redirect := some "x" } :
        ArrowClientContext).poll 30 .notReady =
      ({ ctx0 with expected_acks := [⟨0, 1⟩], redirect := some "x" },
        .err (.connectionError "Arrow Service connection timeout")) :=
  (C1_poll_order _ 30 .notReady).1 (by
    simp [ArrowClientContext.ack_timeout, ExpectedAck.timeout, ACK_TIMEOUT]
    norm_num)

/-- C2: processing an ACK pops the pending-ack head in every branch; an
empty FIFO fails with `no ACK message expected`; a mismatched id fails
with `unexpected ACK message ID`; a matching id in Established returns Ok
with no other state change. -/
theorem C2_ack_fifo (ctx : ArrowClientContext) (msg : ControlMessage) :
    ((ctx.process_ack_message msg).1.expected_acks = ctx.expected_acks.tail) ∧
    (ctx.expected_acks = [] →
      ctx.process_ack_message msg = (ctx, .err (.other "no ACK message expected"))) ∧
    (∀ ea rest, ctx.expected_acks = ea :: rest → msg.header.msg_id ≠ ea.message_id →
      ctx.process_ack_message msg =
        ({ ctx with expected_acks := rest }, .err (.other "unexpected ACK message ID"))) ∧
    (∀ ea rest, ctx.expected_acks = ea :: rest → msg.header.msg_id = ea.message_id →
      ctx.state = .Established →
      ctx.process_ack_message msg = ({ ctx with expected_acks := rest }, .ok)) := by
  refine ⟨?_, ?_, ?_, ?_⟩
  · unfold ArrowClientContext.process_ack_message
    cases hacks : ctx.expected_acks with
    | nil => simp [hacks]
    | cons ea rest =>
      simp only [List.tail_cons]
      split_ifs with h1 h2
      · exact process_handshake_ack_expected_acks _ msg
      · rfl
      · rfl
  · intro h
    unfold ArrowClientContext.process_ack_message
    rw [h]
  · intro ea rest hacks hne
    unfold ArrowClientContext.process_ack_message
    rw [hacks]
    simp [hne]
  · intro ea rest hacks heq hstate
    unfold ArrowClientContext.process_ack_message
    rw [hacks]
    simp [heq, hstate]

/-- C2 witness: an ACK with id 7 arriving while the FIFO holds exactly an
expectation for id 7 in Established pops the queue and succeeds. -/
theorem C2_ack_fifo_witness :
    ({ ctx0 with expected_acks := [⟨0, 7⟩], state := .Established } :
        ArrowClientContext).process_ack_message ⟨⟨7, CMSG_ACK⟩, .ack 0⟩ =
      ({ ctx0 with expected_acks := [], state := .Established }, .ok) :=
  (C2_ack_fifo _ _).2.2.2 ⟨0, 7⟩ [] rfl rfl rfl

/-- C3: an ACK matching the pending-ack head in Handshake dispatches on
the body's `err` field: 0 establishes the connection (setting an empty
redirect in diagnostic mode), 2 is Unauthorized, 1 is
UnsupportedProtocolVersion, 0xffffffff is ArrowServerError, and every
other value is an Other error. -/
theorem C3_handshake_ack (ctx : ArrowClientContext) (ea : ExpectedAck)
    (rest : List ExpectedAck) (msg : ControlMessage) (err : Nat)
    (hacks : ctx.expected_acks = ea :: rest)
    (hid : msg.header.msg_id = ea.message_id)
    (hstate : ctx.state = .Handshake)
    (hbody : msg.body = .ack err) :
    (err = ACK_NO_ERROR →
      (ctx.process_ack_message msg).2 = .ok ∧
      (ctx.process_ack_message msg).1.state = .Established ∧
      (ctx.process_ack_message msg).1.redirect =
        (if ctx.diagnostic_mode then some "" else ctx.redirect)) ∧
    (err = ACK_UNAUTHORIZED →
      ctx.process_ack_message msg =
        ({ ctx with expected_acks := rest },
          .err (.unauthorized "Arrow REGISTER failed (unauthorized)"))) ∧
    (err = ACK_UNSUPPORTED_PROTOCOL_VERSION →
      ctx.process_ack_message msg =
        ({ ctx with expected_acks := rest },
          .err (.unsupportedProtocolVersion
            "Arrow REGISTER failed (unsupported version of the Arrow Protocol)"))) ∧
    (err = ACK_INTERNAL_SERVER_ERROR →
      ctx.process_ack_message msg =
        ({ ctx with expected_acks := rest },
          .err (.arrowServerError "Arrow REGISTER failed (internal server error)"))) ∧
    (err ≠ ACK_NO_ERROR → err ≠ ACK_UNAUTHORIZED →
      err ≠ ACK_UNSUPPORTED_PROTOCOL_VERSION → err ≠ ACK_INTERNAL_SERVER_ERROR →
      ctx.process_ack_message msg =
        ({ ctx with expected_acks := rest },
          .err (.other "Arrow REGISTER failed (unknown error)"))) := by
  unfold ArrowClientContext.process_ack_message
  rw [hacks]
  simp only [hid, if_pos rfl, hstate]
  unfold ArrowClientContext.process_handshake_ack
  rw [hbody]
  refine ⟨?_, ?_, ?_, ?_, ?_⟩
  · intro h
    subst h
    simp [ACK_NO_ERROR]
    split_ifs <;> simp_all
  · intro h
    subst h
    simp [ACK_NO_ERROR, ACK_UNAUTHORIZED]
  · intro h
    subst h
    simp [ACK_NO_ERROR, ACK_UNAUTHORIZED, ACK_UNSUPPORTED_PROTOCOL_VERSION]
  · intro h
    subst h
    simp [ACK_NO_ERROR, ACK_UNAUTHORIZED, ACK_UNSUPPORTED_PROTOCOL_VERSION,
      ACK_INTERNAL_SERVER_ERROR]
  · intro h0 h2 h1 hi
    simp [h0, h2, h1, hi]

/-- C3 witness: a handshake ACK for the pending REGISTER (id 1) with
`err = 2` fails with Unauthorized. -/
theorem C3_handshake_ack_witness :
    ({ ctx0 with expected_acks := [⟨0, 1⟩] } :
        ArrowClientContext).process_ack_message ⟨⟨1, CMSG_ACK⟩, .ack 2⟩ =
      ({ ctx0 with expected_acks := [] },
        .err (.unauthorized "Arrow REGISTER failed (unauthorized)")) :=
  (C3_handshake_ack _ ⟨0, 1⟩ [] _ 2 rfl rfl rfl rfl).2.1 rfl

/-- C4: with the engine in Handshake, every decoded control message whose
type is not ACK is rejected with an error; an inbound PING yields exactly
`Other("cannot handle PING message in the Handshake state")`. -/
theorem C4_handshake_rejects_non_ack (ctx : ArrowClientContext)
    (amsg : ArrowMessage) (cmsg : ControlMessage)
    (hdec : ControlMessage.from_bytes amsg.payload = .ok cmsg)
    (hstate : ctx.state = .Handshake) :
    (cmsg.header.message_type ≠ .ACK →
      ∃ e, (ctx.process_control_protocol_message amsg).2 = .err e) ∧
    (cmsg.header.message_type = .PING →
      (ctx.process_control_protocol_message amsg).2 =
        .err (.other "cannot handle PING message in the Handshake state")) := by
  have hne : ctx.state ≠ ProtocolState.Established := by
    rw [hstate]
    intro h
    exact ProtocolState.noConfusion h
  unfold ArrowClientContext.process_control_protocol_message
  rw [hdec]
  constructor
  · intro hna
    cases htype : cmsg.header.message_type with
    | ACK => exact absurd htype hna
    | PING =>
      simp [htype, ArrowClientContext.process_ping_message, hne]
    | HUP =>
      simp [htype, ArrowClientContext.process_hup_message, hne]
    | REDIRECT =>
      simp [htype, ArrowClientContext.process_redirect_message, hne]
    | GET_STATUS =>
      simp [htype, ArrowClientContext.process_get_status_message, hne]
    | GET_SCAN_REPORT =>
      simp [htype, ArrowClientContext.process_get_scan_report_message, hne]
    | RESET_SVC_TABLE =>
      simp [htype, ArrowClientContext.process_command, hne]
    | SCAN_NETWORK =>
      simp [htype, ArrowClientContext.process_command, hne]
    | UNKNOWN => simp [htype]
    | REGISTER => simp [htype]
    | UPDATE => simp [htype]
    | STATUS => simp [htype]
    | SCAN_REPORT => simp [htype]
  · intro htype
    simp [htype, ArrowClientContext.process_ping_message, hne]

/-- C4 witness: a PING frame (empty body, type code 1) fed to a fresh
Handshake-state engine is rejected with the exact PING-in-Handshake
error. -/
theorem C4_handshake_rejects_non_ack_witness :
    (ctx0.process_control_protocol_message ⟨0, [0, 5, 0, 1]⟩).2 =
      .err (.other "cannot handle PING message in the Handshake state") :=
  (C4_handshake_rejects_non_ack ctx0 ⟨0, [0, 5, 0, 1]⟩
    ⟨⟨5, CMSG_PING⟩, .empty⟩ rfl rfl).2 (by decide)

/-- C5: a first REDIRECT processed in Established sets `redirect` to its
target, and from then on `start_send` accepts (`Ready`) and discards
every further message — a second REDIRECT included — leaving the whole
engine state unchanged, so processing REDIRECT twice equals processing it
once. -/
theorem C5_redirect_idempotent (ctx : ArrowClientContext) (m1 : ArrowMessage)
    (cmsg : ControlMessage) (target : String)
    (hopen : ctx.redirect = none)
    (hstate : ctx.state = .Established)
    (hsvc : m1.service = 0)
    (hdec : ControlMessage.from_bytes m1.payload = .ok cmsg)
    (htype : cmsg.header.message_type = .REDIRECT)
    (hbody : cmsg.body = .redirect target) :
    ctx.start_send m1 = ({ ctx with redirect := some target }, .ok) ∧
    ∀ m2, ((ctx.start_send m1).1).start_send m2 = ((ctx.start_send m1).1, .ok) := by
  have hne : ctx.state ≠ ProtocolState.Established → False := fun h => h hstate
  have hsend : ctx.start_send m1 = ({ ctx with redirect := some target }, .ok) := by
    unfold ArrowClientContext.start_send
    simp [ArrowClientContext.is_closed, hopen, hsvc]
    unfold ArrowClientContext.process_control_protocol_message
    rw [hdec]
    simp [htype]
    unfold ArrowClientContext.process_redirect_message
    simp [hstate, hbody]
  refine ⟨hsend, fun m2 => ?_⟩
  rw [hsend]
  unfold ArrowClientContext.start_send
  simp [ArrowClientContext.is_closed]

/-- C5 witness: from Established, a REDIRECT to "ab" (payload
`[0,1,0,3,97,98]`) is applied once and a second inbound REDIRECT to a
different target is discarded with the state unchanged. -/
theorem C5_redirect_idempotent_witness :
    ({ ctx0 with state := .Established } : ArrowClientContext).start_send
        ⟨0, [0, 1, 0, 3, 97, 98]⟩ =
      ({ ctx0 with state := .Established, redirect := some "ab" }, .ok) ∧
    (({ ctx0 with state := .Established } : ArrowClientContext).start_send
          ⟨0, [0, 1, 0, 3, 97, 98]⟩).1.start_send ⟨0, [0, 2, 0, 3, 99]⟩ =
      ((({ ctx0 with state := .Established } : ArrowClientContext).start_send
          ⟨0, [0, 1, 0, 3, 97, 98]⟩).1, .ok) := by
  have h := C5_redirect_idempotent { ctx0 with state := .Established }
    ⟨0, [0, 1, 0, 3, 97, 98]⟩ ⟨⟨1, CMSG_REDIRECT⟩, .redirect "ab"⟩ "ab"
    rfl rfl rfl rfl rfl rfl
  exact ⟨h.1, h.2 ⟨0, [0, 2, 0, 3, 99]⟩⟩

/-- Context with a single pending ACK registered at time 0 — its deadline
is exactly 20. -/
def ctxBoundary : ArrowClientContext := { ctx0 with expected_acks := [⟨0, 1⟩] }

/-- C6 counterexample: at `now = 20` the head's deadline
(`0 + ACK_TIMEOUT = 20`) is ≤ now, yet `ack_timeout` reports false — the
source compares strictly (`timestamp + ACK_TIMEOUT < now`), so the
claimed "deadline ≤ now" trigger fails at the boundary. -/
theorem C6_ack_timeout_boundary_cex :
    ctxBoundary.expected_acks = [⟨0, 1⟩] ∧
    (0 : ℚ) + ACK_TIMEOUT ≤ 20 ∧
    ctxBoundary.ack_timeout 20 = false := by
  refine ⟨rfl, by norm_num [ACK_TIMEOUT], ?_⟩
  simp only [ctxBoundary, ctx0, ArrowClientContext.ack_timeout, ExpectedAck.timeout,
    ACK_TIMEOUT, decide_eq_false_iff_not, not_lt]
  norm_num

/-- C6 amended: the engine reports an ACK timeout exactly when the
pending-ack FIFO is non-empty and the head's deadline (enqueue timestamp
plus `ACK_TIMEOUT`) is strictly less than the current time; with an empty
FIFO no timeout is ever reported. -/
theorem C6_ack_timeout_iff (ctx : ArrowClientContext) (now : ℚ) :
    ctx.ack_timeout now = true ↔
      ∃ ea rest, ctx.expected_acks = ea :: rest ∧ ea.timestamp + ACK_TIMEOUT < now := by
  unfold ArrowClientContext.ack_timeout
  cases h : ctx.expected_acks with
  | nil => simp [h]
  | cons a t =>
    simp only [h, ExpectedAck.timeout, decide_eq_true_eq, List.cons.injEq]
    constructor
    · intro hlt
      exact ⟨a, t, ⟨rfl, rfl⟩, hlt⟩
    · rintro ⟨ea, rest, ⟨hea, -⟩, hlt⟩
      rw [hea]
      exact hlt

/-- Established-state context whose update check is already satisfied, so
only the PING branch of `time_event` is in play. -/
def ctxPing : ArrowClientContext :=
  { ctx0 with state := .Established, last_update_chck := 60 }

/-- C7 counterexample: at `t = 60` with `last_ping = 0` we have
`t - last_ping ≥ PING_PERIOD`, yet `time_event` changes nothing — the
source only pings when `last_ping + PING_PERIOD < t` (strictly). -/
theorem C7_time_event_boundary_cex :
    ctxPing.state = .Established ∧
    ctxPing.last_ping = 0 ∧
    PING_PERIOD ≤ (60 : ℚ) - ctxPing.last_ping ∧
    ctxPing.time_event 60 = ctxPing := by
  refine ⟨rfl, rfl, by norm_num [ctxPing, ctx0, PING_PERIOD], ?_⟩
  unfold ArrowClientContext.time_event
  norm_num [ctxPing, ctx0, PING_PERIOD, UPDATE_CHECK_PERIOD]

/-- C7 amended: in Established, a `time_event` at time `t` with
`last_ping + PING_PERIOD < t` (strictly) enqueues a PING carrying the
factory's next id, registers an expected ACK for it and sets
`last_ping = t` (followed by an UPDATE when the update check also
fires); in Handshake, `time_event` changes nothing. -/
theorem C7_time_event_spec (ctx : ArrowClientContext) (t : ℚ) :
    (ctx.state = .Handshake → ctx.time_event t = ctx) ∧
    (ctx.state = .Established → ctx.last_ping + PING_PERIOD < t →
      (ctx.time_event t).last_ping = t ∧
      (ctx.time_event t).expected_acks =
        ctx.expected_acks ++ [⟨t, ctx.cmsg_factory.next_msg_id % 65536⟩] ∧
      (ctx.time_event t).messages =
        ctx.messages ++
          QueuedMessage.control ⟨⟨ctx.cmsg_factory.next_msg_id % 65536, CMSG_PING⟩, .empty⟩ ::
          (if ctx.last_update_chck + UPDATE_CHECK_PERIOD < t then
            [QueuedMessage.control
              ⟨⟨(ctx.cmsg_factory.next_msg_id + 1) % 65536, CMSG_UPDATE⟩, .update⟩]
          else [])) := by
  constructor
  · intro h
    unfold ArrowClientContext.time_event
    simp [h]
  · intro hstate hping
    unfold ArrowClientContext.time_event ArrowClientContext.send_ping_message
      ArrowClientContext.check_for_updates ArrowClientContext.send_update_message
      ArrowClientContext.send_unconfirmed_control_message
      ArrowClientContext.send_control_message ControlMessageFactory.ping
      ControlMessageFactory.update ControlMessageFactory.take_id
    rw [hstate]
    by_cases hu : ctx.last_update_chck + UPDATE_CHECK_PERIOD < t
    · simp [hping, hu, List.append_assoc]
    · simp [hping, hu, List.append_assoc]

/-- C7 witness: in Established at `t = 61` with `last_ping = 0` and the
update check already satisfied, exactly a PING (id 1) is enqueued, an
expectation for it is registered and `last_ping` becomes 61. -/
theorem C7_time_event_spec_witness :
    (({ ctx0 with state := .Established, last_update_chck := 61 } :
          ArrowClientContext).time_event 61).last_ping = 61 ∧
    (({ ctx0 with state := .Established, last_update_chck := 61 } :
          ArrowClientContext).time_event 61).expected_acks = [⟨61, 1⟩] ∧
    (({ ctx0 with state := .Established, last_update_chck := 61 } :
          ArrowClientContext).time_event 61).messages =
      [QueuedMessage.control ⟨⟨1, CMSG_PING⟩, .empty⟩] := by
  have h := (C7_time_event_spec
    { ctx0 with state := .Established, last_update_chck := 61 } 61).2
    rfl (by norm_num [ctx0, PING_PERIOD])
  refine ⟨h.1, ?_, ?_⟩
  · rw [h.2.1]
    rfl
  · rw [h.2.2]
    norm_num [ctx0, UPDATE_CHECK_PERIOD]

/-- C8 counterexample: a nonzero-service frame handed to the open engine
while still in Handshake is rejected with an error and not forwarded (the
engine state is unchanged), contradicting the unconditional claim. -/
theorem C8_service_request_handshake_cex :
    ctx0.redirect = none ∧ ctx0.state = .Handshake ∧
    ctx0.start_send ⟨1, []⟩ =
      (ctx0, .err (.other "cannot handle service requests in the Handshake state")) :=
  ⟨rfl, rfl, rfl⟩

/-- C8 amended: every inbound `ArrowMessage` with nonzero service handed
to the open engine while the state is Established is forwarded to the
session manager and the result is Ok. -/
theorem C8_service_request_spec (ctx : ArrowClientContext) (msg : ArrowMessage)
    (hopen : ctx.redirect = none)
    (hstate : ctx.state = .Established)
    (hsvc : msg.service ≠ 0) :
    ctx.start_send msg =
      ({ ctx with forwarded := ctx.forwarded ++ [msg] }, .ok) := by
  unfold ArrowClientContext.start_send ArrowClientContext.process_service_request_message
  simp [ArrowClientContext.is_closed, hopen, hsvc, hstate]

/-- C8 witness: the frame with service id 3 is forwarded by an open
Established engine. -/
theorem C8_service_request_spec_witness :
    ({ ctx0 with state := .Established } : ArrowClientContext).start_send ⟨3, [7]⟩ =
      ({ ctx0 with state := .Established, forwarded := [⟨3, [7]⟩] }, .ok) :=
  C8_service_request_spec { ctx0 with state := .Established } ⟨3, [7]⟩
    rfl rfl (by decide)

/-- C9: a PING processed in Established appends exactly one ACK to the
outbound queue, echoing the inbound `msg_id` verbatim with error code 0,
and changes nothing else — in particular no pending-ack entry is added. -/
theorem C9_ping_reply (ctx : ArrowClientContext) (msg : ControlMessage)
    (hstate : ctx.state = .Established) :
    ctx.process_ping_message msg =
      ({ ctx with messages := ctx.messages ++
          [QueuedMessage.control ⟨⟨msg.header.msg_id, CMSG_ACK⟩, .ack 0⟩] }, .ok) := by
  unfold ArrowClientContext.process_ping_message ControlMessageFactory.ack
    ArrowClientContext.send_control_message
  simp [hstate]

/-- C9 witness: a PING with id 9 in Established is answered by exactly
`ACK(9, 0)` with the pending-ack tracker left empty. -/
theorem C9_ping_reply_witness :
    ({ ctx0 with state := .Established } : ArrowClientContext).process_ping_message
        ⟨⟨9, CMSG_PING⟩, .empty⟩ =
      ({ ctx0 with
          state := .Established
          messages := [QueuedMessage.control ⟨⟨9, CMSG_ACK⟩, .ack 0⟩] }, .ok) :=
  C9_ping_reply { ctx0 with state := .Established } ⟨⟨9, CMSG_PING⟩, .empty⟩ rfl

/-- The message types `ControlMessage::decode_body` accepts: exactly the
inbound set {ACK, PING, REDIRECT, HUP, RESET_SVC_TABLE, SCAN_NETWORK,
GET_STATUS, GET_SCAN_REPORT}. -/
def inboundDecodable : ControlMessageType → Bool
  | .ACK => true
  | .PING => true
  | .REDIRECT => true
  | .HUP => true
  | .RESET_SVC_TABLE => true
  | .SCAN_NETWORK => true
  | .GET_STATUS => true
  | .GET_SCAN_REPORT => true
  | _ => false

/-- Helper: a successful body decode means the type is in the inbound
set. -/
theorem decode_body_ok_decodable (mtype : ControlMessageType) (bytes : List Nat)
    (body : ControlMessageBody)
    (h : ControlMessage.decode_body mtype bytes = .ok body) :
    inboundDecodable mtype = true := by
  cases mtype <;> simp_all [ControlMessage.decode_body, inboundDecodable]

/-- C10: a byte sequence whose header carries a message type outside the
inbound set (the outbound-only codes and any unrecognized code) makes
`ControlMessage::from_bytes` return a `DecodeError`; conversely every
successful decode yields a type in the inbound set, so the UNKNOWN
dispatch arm of `process_control_protocol_message` is unreachable. -/
theorem C10_unknown_types_decode_error :
    (∀ bytes : List Nat, 4 ≤ bytes.length →
      inboundDecodable (ControlMessageHeader.from_bytes (bytes.take 4)).message_type = false →
      ∃ e, ControlMessage.from_bytes bytes = .error e) ∧
    (∀ bytes cmsg, ControlMessage.from_bytes bytes = .ok cmsg →
      inboundDecodable cmsg.header.message_type = true ∧
      cmsg.header.message_type ≠ .UNKNOWN) := by
  constructor
  · intro bytes hlen hbad
    have hlt : ¬ (bytes.length < 4) := by omega
    cases htype : (ControlMessageHeader.from_bytes (bytes.take 4)).message_type <;>
      simp_all [inboundDecodable, ControlMessage.from_bytes, ControlMessage.decode_body]
    all_goals exact ⟨_, if_neg (by omega)⟩
  · intro bytes cmsg hok
    by_cases hlt : bytes.length < 4
    · simp [ControlMessage.from_bytes, hlt] at hok
    · simp only [ControlMessage.from_bytes, if_neg hlt] at hok
      cases hdb : ControlMessage.decode_body
          ((ControlMessageHeader.from_bytes (bytes.take 4)).message_type)
          (bytes.drop 4) with
      | error e =>
        rw [hdb] at hok
        exact absurd hok (by simp)
      | ok body =>
        rw [hdb] at hok
        cases hok
        have hd := decode_body_ok_decodable _ _ _ hdb
        refine ⟨hd, fun hU => ?_⟩
        rw [hU] at hd
        exact absurd hd (by decide)

/-- C10 witness: the header `[0,1,0,2]` names the outbound-only REGISTER
type, so decoding fails. -/
theorem C10_unknown_types_decode_error_witness :
    ∃ e, ControlMessage.from_bytes [0, 1, 0, 2] = .error e :=
  C10_unknown_types_decode_error.1 [0, 1, 0, 2] (by decide) (by decide)

end Arrow
